import Mathlib

/-!
Verification of the gpop daemon's pipeline-lifecycle core.

This file gives a shallow embedding, in Lean, of the code under
`src/daemon/src/` of the gpop repository (the live 2026 generation: the
`gst` module tree, `websocket/manager.rs`, `error.rs` and `main.rs`),
and proves or refutes the frozen claims C1..C10 about it.

Conventions of the embedding:
* The GStreamer framework is external; its behaviour at each call site is a
  parameter (a `parse` oracle for `gst::parse::launch`, a `stopO` oracle for
  driving a graph to the null state).
* Machine integers are modelled as `Nat` with an explicit `% 2 ^ 64` where
  the source uses a wrapping `u64` counter.
* The concurrent registry (`RwLock<HashMap<String, _>>`) is modelled as an
  association list with unique keys (`RegWF`); each manager operation is a
  pure state transition returning `(result, state, emitted events)`.
* `f64` progress arithmetic is modelled over `ℚ` (exact division and clamp).
-/

namespace Gpop

/-- Pipeline state enumeration, from `src/daemon/src/gst/event.rs`
(`PipelineState`): `void_pending`, `null`, `ready`, `paused`, `playing`. -/
inductive PipelineState
  | VoidPending
  | Null
  | Ready
  | Paused
  | Playing
deriving DecidableEq, Repr

/-- Lifecycle event enumeration exactly as declared in
`src/daemon/src/gst/event.rs` lines 73-98 (`PipelineEvent`).  Note: the
declaration there has NO `Unsupported` variant, although
`gst/pipeline.rs`, `main.rs` and the repository's own tests construct one;
this inconsistency is the subject of claim C4. -/
inductive PipelineEvent
  | StateChanged (pipeline_id : String) (old_state new_state : PipelineState)
  | Error (pipeline_id : String) (message : String)
  | Eos (pipeline_id : String)
  | PipelineAdded (pipeline_id : String) (description : String)
  | PipelineUpdated (pipeline_id : String) (description : String)
  | PipelineRemoved (pipeline_id : String)
deriving DecidableEq, Repr

/-- Error taxonomy of the daemon, from `src/daemon/src/error.rs`
(`GpopError`).  The `MediaNotSupported` constructor is NOT present in the
enum declared in `error.rs`; it is nevertheless constructed by
`gst/pipeline.rs` (`Pipeline::new`, bus watcher) and matched by
`websocket/protocol.rs` (`Response::from_gpop_error`, code -32005).  We
include it here so those source functions can be embedded faithfully; its
absence from `error.rs` is the subject of claim C3.  The `Io` variant of the
source is rendered `IoError` (name hygiene only). -/
inductive GpopError
  | GStreamer (msg : String)
  | PipelineNotFound (id : String)
  | InvalidPipeline (msg : String)
  | StateChangeFailed (msg : String)
  | MediaNotSupported (msg : String)
  | DBus (msg : String)
  | WebSocket (msg : String)
  | Json (msg : String)
  | IoError (msg : String)
deriving DecidableEq, Repr

/-- `MAX_PIPELINE_DESCRIPTION_LENGTH` from `src/daemon/src/gst/pipeline.rs`:
64 * 1024 bytes. -/
def MAX_PIPELINE_DESCRIPTION_LENGTH : Nat := 64 * 1024

/-- `MAX_PIPELINES` from `src/daemon/src/gst/mod.rs`: at most 100 pipelines. -/
def MAX_PIPELINES : Nat := 100

/-- Rust's `str::contains` for our setting: `needle` occurs as a contiguous
substring of `haystack`, decided on the character lists. -/
def containsSub (needle haystack : String) : Bool :=
  decide (needle.data <:+: haystack.data)

/-- Rust's `str::to_lowercase`, modelled characterwise (identical for the
ASCII pattern set at issue). -/
def lowerString (s : String) : String :=
  String.mk (s.data.map Char.toLower)

/-- Rust's `str::trim`: drop leading and trailing whitespace. -/
def trimString (s : String) : String :=
  String.mk (((s.data.dropWhile Char.isWhitespace).reverse.dropWhile
    Char.isWhitespace).reverse)

/-- The fixed unsupported-media pattern set of
`is_media_not_supported_error` in `src/daemon/src/gst/pipeline.rs`
(the `media_patterns` array, in source order). -/
def media_patterns : List String :=
  [ "no suitable"
  , "missing plugin"
  , "missing element"
  , "codec not found"
  , "could not determine type"
  , "unhandled"
  , "not supported"
  , "unsupported"
  , "no decoder"
  , "no encoder"
  , "no demuxer"
  , "no muxer"
  , "format not supported"
  , "caps not supported"
  , "not negotiated"
  , "stream type not supported" ]

/-- The `for pattern in &media_patterns` loop of
`is_media_not_supported_error`: scan the patterns in order and on the first
substring hit in the lowercased message return the original message. -/
def mediaPatternScan (message msg_lower : String) : List String → Option String
  | [] => none
  | p :: rest =>
      if containsSub p msg_lower then some message else mediaPatternScan message msg_lower rest

/-- `is_media_not_supported_error` from `src/daemon/src/gst/pipeline.rs`
lines 24-56: lowercase the message, scan the pattern array in order, and on
the first substring hit return the ORIGINAL (unlowercased) message;
otherwise return no classification.  The `&glib::Error` argument is
represented by its human-readable message. -/
def is_media_not_supported_error (message : String) : Option String :=
  mediaPatternScan message (lowerString message) media_patterns

/-- Outcome of the external call `gst::parse::launch(description)` followed
by the `downcast::<gst::Pipeline>()`: either a successfully parsed composite
graph, a parsed object that is not a pipeline (downcast failure), or a parse
error carrying the framework's message. -/
inductive ParseResult
  | ok
  | notPipeline
  | err (message : String)
deriving DecidableEq, Repr

/-- The behaviour of the media framework at parse time, one outcome per
description. -/
abbrev ParseOracle := String → ParseResult

/-- The `Pipeline` entity of `src/daemon/src/gst/pipeline.rs` (fields
relevant to the claims).  `hasBus` records whether `graph.bus()` returns a
handle; GStreamer guarantees a bus for every `gst::Pipeline`, and the spec
states the invariant "a Pipeline whose construction succeeded has a non-null
bus handle", so construction sets it to `true`.  The graph itself, the task
handle and the atomic flag have no observable content for the claims beyond
what is kept here. -/
structure PipelineR where
  id : String
  description : String
  hasBus : Bool
  shutdownFlag : Bool
deriving DecidableEq, Repr

/-- Steps 3-4 of `Pipeline::new` (`src/daemon/src/gst/pipeline.rs` lines
92-113), after the two validations: parse via the framework, classify parse
failures with `is_media_not_supported_error`, reject non-composite results
with `InvalidPipeline("Not a pipeline")`, and otherwise return the pipeline
with no watcher attached and the shutdown flag cleared. -/
def pipelineParsePhase (parse : ParseOracle) (id description : String) :
    Except GpopError PipelineR :=
  match parse description with
  | ParseResult.err e =>
      match is_media_not_supported_error e with
      | some msg => Except.error (GpopError.MediaNotSupported msg)
      | none => Except.error (GpopError.InvalidPipeline e)
  | ParseResult.notPipeline =>
      Except.error (GpopError.InvalidPipeline "Not a pipeline")
  | ParseResult.ok =>
      Except.ok { id := id, description := description,
                  hasBus := true, shutdownFlag := false }

/-- `Pipeline::new` from `src/daemon/src/gst/pipeline.rs` lines 71-113:
reject an empty-after-trim description, then an over-length description
(byte length above `MAX_PIPELINE_DESCRIPTION_LENGTH`), then hand over to the
parse phase. -/
def Pipeline.new (parse : ParseOracle) (id description : String) :
    Except GpopError PipelineR :=
  if (trimString description).isEmpty then
    Except.error (GpopError.InvalidPipeline "Pipeline description cannot be empty")
  else if description.utf8ByteSize > MAX_PIPELINE_DESCRIPTION_LENGTH then
    Except.error (GpopError.InvalidPipeline
      ("Pipeline description too long: " ++ toString description.utf8ByteSize
        ++ " bytes (max: " ++ toString MAX_PIPELINE_DESCRIPTION_LENGTH ++ " bytes)"))
  else
    pipelineParsePhase parse id description

/-- The registry of `PipelineManager` (`RwLock<HashMap<String, Pipeline>>`),
modelled as an association list from pipeline id to pipeline. -/
abbrev Registry := List (String × PipelineR)

/-- `HashMap::remove` on the registry: drop the binding of `id` (with unique
keys, at most one entry is dropped). -/
def regRemove (r : Registry) (id : String) : Registry :=
  r.filter (fun kv => kv.1 != id)

/-- Representation invariant of the `HashMap` registry: keys are pairwise
distinct. -/
def RegWF (r : Registry) : Prop :=
  (r.map Prod.fst).Nodup

instance (r : Registry) : Decidable (RegWF r) := by
  unfold RegWF; infer_instance

/-- `PipelineManager` state, from `src/daemon/src/gst/manager.rs`: the
registry and the `next_id: AtomicU64` counter (`% 2 ^ 64` models the
wrapping `fetch_add`). -/
structure ManagerState where
  pipelines : Registry
  nextId : Nat
deriving DecidableEq, Repr

/-- `PipelineManager::new` (`gst/manager.rs` lines 34-40): empty registry,
counter at 0. -/
def ManagerState.new : ManagerState :=
  { pipelines := [], nextId := 0 }

/-- The outcome of the external call driving one graph to the `null` state
(`Pipeline::stop`, i.e. `set_state(Null)` plus the bounded wait): success or
a `StateChangeFailed` error. -/
abbrev StopOracle := PipelineR → Except GpopError Unit

/-- `PipelineManager::add_pipeline` (`gst/manager.rs` lines 42-107):
limit check under the read lock (before any id allocation), `fetch_add` on
the counter, pipeline construction, bus extraction, watcher spawn, insertion
under the write lock, `pipeline_added` publication, and the id as result.
Returns `(result, new state, emitted events)`. -/
def add_pipeline (parse : ParseOracle) (st : ManagerState) (description : String) :
    Except GpopError String × ManagerState × List PipelineEvent :=
  if st.pipelines.length ≥ MAX_PIPELINES then
    (Except.error (GpopError.InvalidPipeline
        ("Maximum number of pipelines (" ++ toString MAX_PIPELINES ++ ") reached")),
      st, [])
  else
    let id_num := st.nextId
    let st₁ := { st with nextId := (st.nextId + 1) % 2 ^ 64 }
    let id := toString id_num
    match Pipeline.new parse id description with
    | Except.error e => (Except.error e, st₁, [])
    | Except.ok p =>
        if p.hasBus then
          let st₂ := { st₁ with pipelines := (id, p) :: regRemove st₁.pipelines id }
          (Except.ok id, st₂, [PipelineEvent.PipelineAdded id description])
        else
          (Except.error (GpopError.InvalidPipeline "Pipeline has no bus"), st₁, [])

/-- `PipelineManager::remove_pipeline` (`gst/manager.rs` lines 109-134):
under the write lock remove the entry; if absent fail with
`PipelineNotFound`; otherwise call `p.stop()` and propagate its error with
`?` (note: the entry is already removed, and on a stop error no
`pipeline_removed` event is published); on stop success publish
`pipeline_removed` and return unit. -/
def remove_pipeline (stopO : StopOracle) (st : ManagerState) (id : String) :
    Except GpopError Unit × ManagerState × List PipelineEvent :=
  match st.pipelines.lookup id with
  | some p =>
      let st₁ := { st with pipelines := regRemove st.pipelines id }
      match stopO p with
      | Except.ok _ => (Except.ok (), st₁, [PipelineEvent.PipelineRemoved id])
      | Except.error e => (Except.error e, st₁, [])
  | none => (Except.error (GpopError.PipelineNotFound id), st, [])

/-- `PipelineManager::update_pipeline` (`gst/manager.rs` lines 223-292):
construct the replacement first (errors propagate with the registry
untouched), extract its bus, then under the write lock check-and-swap:
absent id fails with `PipelineNotFound`; otherwise the old entry is removed
and stopped with its error ignored (`let _ = p.stop()`), the replacement is
inserted under the same id, and `pipeline_updated` is published. -/
def update_pipeline (parse : ParseOracle) (stopO : StopOracle)
    (st : ManagerState) (id description : String) :
    Except GpopError Unit × ManagerState × List PipelineEvent :=
  match Pipeline.new parse id description with
  | Except.error e => (Except.error e, st, [])
  | Except.ok newP =>
      if newP.hasBus then
        match st.pipelines.lookup id with
        | some oldP =>
            let _ := stopO oldP
            let st₁ := { st with pipelines := (id, newP) :: regRemove st.pipelines id }
            (Except.ok (), st₁, [PipelineEvent.PipelineUpdated id description])
        | none => (Except.error (GpopError.PipelineNotFound id), st, [])
      else
        (Except.error (GpopError.InvalidPipeline "Pipeline has no bus"), st, [])

/-- `PipelineManager::get_pipeline_description` (`gst/manager.rs` lines
156-160): resolve through the registry, else `PipelineNotFound`. -/
def get_pipeline_description (st : ManagerState) (id : String) :
    Except GpopError String :=
  match st.pipelines.lookup id with
  | some p => Except.ok p.description
  | none => Except.error (GpopError.PipelineNotFound id)

/-- `PipelineManager::pipeline_count` (`gst/manager.rs` lines 185-188):
read-locked registry size. -/
def pipeline_count (st : ManagerState) : Nat :=
  st.pipelines.length

/-- `DEFAULT_PIPELINE_ID` from `src/daemon/src/websocket/mod.rs` line 30. -/
def DEFAULT_PIPELINE_ID : String := "0"

/-- The `params.pipeline_id.unwrap_or_else(|| DEFAULT_PIPELINE_ID.to_string())`
resolution used by `play`/`pause`/`stop`/`get_position`/`snapshot` in
`src/daemon/src/websocket/manager.rs`. -/
def resolveOptionalPipelineId (pipeline_id : Option String) : String :=
  pipeline_id.getD DEFAULT_PIPELINE_ID

/-- The `progress` computation of `ManagerInterface::get_position`
(`src/daemon/src/websocket/manager.rs` lines 264-273): when both position
and duration are present and the duration is positive, position divided by
duration clamped to the interval from 0 to 1, else no progress value.  The
`f64` arithmetic of the source is modelled exactly over `ℚ`. -/
def computeProgress (position_ns duration_ns : Option Nat) : Option ℚ :=
  match position_ns, duration_ns with
  | some pos, some dur =>
      if 0 < dur then some (min 1 (max 0 ((pos : ℚ) / (dur : ℚ)))) else none
  | _, _ => none

/-- A minimal JSON value model, sufficient for the event wire shape of
`gst/event.rs`: strings and objects with string keys. -/
inductive JVal
  | s (v : String)
  | obj (fields : List (String × JVal))

/-- serde serialization of `PipelineState` under
`#[serde(rename_all = "lowercase")]` (`gst/event.rs` lines 11-20): the
variant name lowercased, so `VoidPending` becomes `"voidpending"`. -/
def stateToWire : PipelineState → String
  | PipelineState.VoidPending => "voidpending"
  | PipelineState.Null => "null"
  | PipelineState.Ready => "ready"
  | PipelineState.Paused => "paused"
  | PipelineState.Playing => "playing"

/-- serde deserialization of `PipelineState`: exact match on the renamed
variant strings. -/
def stateOfWire : String → Option PipelineState
  | "voidpending" => some PipelineState.VoidPending
  | "null" => some PipelineState.Null
  | "ready" => some PipelineState.Ready
  | "paused" => some PipelineState.Paused
  | "playing" => some PipelineState.Playing
  | _ => none

/-- serde serialization of `PipelineEvent` under
`#[serde(tag = "event", content = "data")]` with the per-variant renames of
`gst/event.rs` lines 73-98: an object with an `event` tag string and a
`data` object holding the variant's fields. -/
def eventToJson : PipelineEvent → JVal
  | PipelineEvent.StateChanged pid old new =>
      JVal.obj [("event", JVal.s "state_changed"),
        ("data", JVal.obj [("pipeline_id", JVal.s pid),
          ("old_state", JVal.s (stateToWire old)),
          ("new_state", JVal.s (stateToWire new))])]
  | PipelineEvent.Error pid msg =>
      JVal.obj [("event", JVal.s "error"),
        ("data", JVal.obj [("pipeline_id", JVal.s pid), ("message", JVal.s msg)])]
  | PipelineEvent.Eos pid =>
      JVal.obj [("event", JVal.s "eos"),
        ("data", JVal.obj [("pipeline_id", JVal.s pid)])]
  | PipelineEvent.PipelineAdded pid desc =>
      JVal.obj [("event", JVal.s "pipeline_added"),
        ("data", JVal.obj [("pipeline_id", JVal.s pid), ("description", JVal.s desc)])]
  | PipelineEvent.PipelineUpdated pid desc =>
      JVal.obj [("event", JVal.s "pipeline_updated"),
        ("data", JVal.obj [("pipeline_id", JVal.s pid), ("description", JVal.s desc)])]
  | PipelineEvent.PipelineRemoved pid =>
      JVal.obj [("event", JVal.s "pipeline_removed"),
        ("data", JVal.obj [("pipeline_id", JVal.s pid)])]

/-- Field access in a JSON object (order-insensitive, as serde's
deserializer is). -/
def jField (j : JVal) (key : String) : Option JVal :=
  match j with
  | JVal.obj fields => fields.lookup key
  | _ => none

/-- Read a string field of a JSON object. -/
def jStr (j : JVal) (key : String) : Option String :=
  match jField j key with
  | some (JVal.s v) => some v
  | _ => none

/-- Read a `PipelineState` field of a JSON object. -/
def jState (j : JVal) (key : String) : Option PipelineState :=
  match jStr j key with
  | some v => stateOfWire v
  | none => none

/-- serde deserialization of `PipelineEvent` from the adjacently tagged
shape: read the `event` tag, then decode the `data` object per variant
(only the six variants declared in `gst/event.rs` exist). -/
def eventFromJson (j : JVal) : Option PipelineEvent :=
  match jStr j "event", jField j "data" with
  | some tag, some data =>
      match tag with
      | "state_changed" =>
          match jStr data "pipeline_id", jState data "old_state", jState data "new_state" with
          | some pid, some old, some new => some (PipelineEvent.StateChanged pid old new)
          | _, _, _ => none
      | "error" =>
          match jStr data "pipeline_id", jStr data "message" with
          | some pid, some msg => some (PipelineEvent.Error pid msg)
          | _, _ => none
      | "eos" =>
          match jStr data "pipeline_id" with
          | some pid => some (PipelineEvent.Eos pid)
          | none => none
      | "pipeline_added" =>
          match jStr data "pipeline_id", jStr data "description" with
          | some pid, some desc => some (PipelineEvent.PipelineAdded pid desc)
          | _, _ => none
      | "pipeline_updated" =>
          match jStr data "pipeline_id", jStr data "description" with
          | some pid, some desc => some (PipelineEvent.PipelineUpdated pid desc)
          | _, _ => none
      | "pipeline_removed" =>
          match jStr data "pipeline_id" with
          | some pid => some (PipelineEvent.PipelineRemoved pid)
          | none => none
      | _ => none
  | _, _ => none

/-- The `event` tag a serialized event carries on the wire. -/
def eventTag (e : PipelineEvent) : Option String :=
  jStr (eventToJson e) "event"

/-- `EXIT_CODE_ERROR` from `src/daemon/src/main.rs` line 199. -/
def EXIT_CODE_ERROR : Nat := 1

/-- `EXIT_CODE_UNSUPPORTED` (EX_UNAVAILABLE) from `src/daemon/src/main.rs`
line 200. -/
def EXIT_CODE_UNSUPPORTED : Nat := 69

/-- The event view the playback tracker of `main.rs` matches on (lines
230-283): `Eos`, `Error`, `Unsupported`, `PipelineRemoved`, and a catch-all
for every other variant.  (`main.rs` names these `PipelineEvent` variants;
`Unsupported` is among them although `gst/event.rs` does not declare it —
see claim C4.) -/
inductive TrackerEvent
  | eos (pipeline_id : String)
  | error (pipeline_id : String) (message : String)
  | unsupported (pipeline_id : String) (message : String)
  | removed (pipeline_id : String)
  | other
deriving DecidableEq, Repr

/-- One reception on the tracker's broadcast subscription: an event, a
`Lagged` signal (carrying, for the reconciliation query, the set of ids the
manager still knows), or `Closed`. -/
inductive TrackerMsg
  | ev (e : TrackerEvent)
  | lagged (alive : List String)
  | closed
deriving DecidableEq, Repr

/-- The playback tracker's mutable state in `main.rs`: the pending id set
and the two flags. -/
structure TrackerState where
  pending : List String
  hadError : Bool
  hadUnsupported : Bool
deriving DecidableEq, Repr

/-- Tracker initialization (`main.rs` lines 207-219): pending is the set of
initial ids minus those whose `play` failed, and `had_error` starts true
exactly when some `play` failed. -/
def trackerInit (initial_ids playback_failed_ids : List String) : TrackerState :=
  { pending := initial_ids.filter (fun id => !(playback_failed_ids.contains id))
  , hadError := !playback_failed_ids.isEmpty
  , hadUnsupported := false }

/-- One iteration of the tracker loop body (`main.rs` lines 229-315): each
completion event removes its id from pending — and sets the matching flag
only if the id was in fact pending; a lag reconciles pending against the
manager (ids no longer alive are dropped and flag an error); a closed
channel flags an error and clears pending. -/
def trackerStep (st : TrackerState) (m : TrackerMsg) : TrackerState :=
  match m with
  | TrackerMsg.ev (TrackerEvent.eos pid) =>
      if st.pending.contains pid then
        { st with pending := st.pending.filter (fun id => id != pid) }
      else st
  | TrackerMsg.ev (TrackerEvent.error pid _) =>
      if st.pending.contains pid then
        { st with pending := st.pending.filter (fun id => id != pid), hadError := true }
      else st
  | TrackerMsg.ev (TrackerEvent.unsupported pid _) =>
      if st.pending.contains pid then
        { st with pending := st.pending.filter (fun id => id != pid), hadUnsupported := true }
      else st
  | TrackerMsg.ev (TrackerEvent.removed pid) =>
      if st.pending.contains pid then
        { st with pending := st.pending.filter (fun id => id != pid), hadError := true }
      else st
  | TrackerMsg.ev TrackerEvent.other => st
  | TrackerMsg.lagged alive =>
      let gone := st.pending.filter (fun id => !(alive.contains id))
      { st with pending := st.pending.filter (fun id => alive.contains id)
              , hadError := st.hadError || !gone.isEmpty }
  | TrackerMsg.closed =>
      { st with pending := [], hadError := true }

/-- The completion-code decision of `main.rs` lines 319-326: error takes
priority over unsupported, then unsupported, then success. -/
def completionCode (hadError hadUnsupported : Bool) : Nat :=
  if hadError then EXIT_CODE_ERROR
  else if hadUnsupported then EXIT_CODE_UNSUPPORTED
  else 0

/-- The tracker loop (`main.rs` lines 228-330) over a finite reception
sequence: receptions are processed in order and, as soon as pending becomes
empty after a step, the completion code for the current flags is sent.
Returns `none` if the receptions are exhausted with pipelines still
pending. -/
def trackerLoop (st : TrackerState) : List TrackerMsg → Option (Nat × TrackerState)
  | [] => none
  | m :: rest =>
      let st₁ := trackerStep st m
      if st₁.pending.isEmpty then
        some (completionCode st₁.hadError st₁.hadUnsupported, st₁)
      else trackerLoop st₁ rest

/-- The tracker task (`main.rs` lines 217-331): if pending is empty before
the loop, `EXIT_CODE_ERROR` is sent immediately (all pipelines failed to
start); otherwise the loop runs.  Returns the sent completion code together
with the tracker state at that moment. -/
def trackerRun (st : TrackerState) (msgs : List TrackerMsg) :
    Option (Nat × TrackerState) :=
  if st.pending.isEmpty then some (EXIT_CODE_ERROR, st)
  else trackerLoop st msgs

/-- A sample pipeline value, used to build concrete registry states in
witnesses. -/
def samplePipeline : PipelineR :=
  { id := "0", description := "fakesrc ! fakesink", hasBus := true, shutdownFlag := false }

/-- A parse oracle under which every description parses successfully. -/
def parseAlwaysOk : ParseOracle := fun _ => ParseResult.ok

/-- A stop oracle under which driving to null always succeeds. -/
def stopAlwaysOk : StopOracle := fun _ => Except.ok ()

/-- A stop oracle under which driving to null fails with a state-change
error, as `gst::Pipeline::set_state(Null)` can. -/
def stopAlwaysFails : StopOracle :=
  fun _ => Except.error (GpopError.StateChangeFailed "state change failure")

/-- The pattern scan returns the original message exactly when some pattern
is a substring of the supplied lowercased text, and nothing otherwise. -/
lemma mediaPatternScan_spec (message lower : String) (ps : List String) :
    mediaPatternScan message lower ps =
      (if ps.any (fun p => containsSub p lower) then some message else none) := by
  induction ps with
  | nil => rfl
  | cons p rest ih =>
      by_cases h : containsSub p lower
      · simp [mediaPatternScan, h]
      · simp [mediaPatternScan, h, ih]

/-- Claim C7: the unsupported-media classifier returns the original
(unlowercased) message exactly when the lowercased message contains at
least one of the 16 fixed substrings of the pattern set, returns no
classification otherwise, classifies every string of the pattern set
itself as unsupported, and does not classify "generic failure occurred". -/
theorem C7_unsupported_classifier_exact :
    (∀ msg : String,
        (∃ p ∈ media_patterns, p.data <:+: (lowerString msg).data) →
          is_media_not_supported_error msg = some msg) ∧
    (∀ msg : String,
        (∀ p ∈ media_patterns, ¬ p.data <:+: (lowerString msg).data) →
          is_media_not_supported_error msg = none) ∧
    (∀ p ∈ media_patterns, is_media_not_supported_error p = some p) ∧
    is_media_not_supported_error "generic failure occurred" = none := by
  refine ⟨?_, ?_, by decide, by decide⟩
  · rintro msg ⟨p, hp, hsub⟩
    have hany : media_patterns.any (fun q => containsSub q (lowerString msg)) = true :=
      List.any_eq_true.mpr ⟨p, hp, by simpa [containsSub] using hsub⟩
    simp [is_media_not_supported_error, mediaPatternScan_spec, hany]
  · intro msg hall
    have hany : media_patterns.any (fun q => containsSub q (lowerString msg)) = false := by
      rw [← Bool.not_eq_true, List.any_eq_true]
      rintro ⟨p, hp, hc⟩
      exact hall p hp (by simpa [containsSub] using hc)
    simp [is_media_not_supported_error, mediaPatternScan_spec, hany]

/-- Witness for C7: the pattern "missing plugin" is in the pattern set and
classifies as unsupported, and the mixed-case message "No Decoder available"
contains the pattern "no decoder" after lowercasing and classifies as
unsupported. -/
theorem C7_unsupported_classifier_exact_witness :
    ("missing plugin" ∈ media_patterns ∧
      is_media_not_supported_error "missing plugin" = some "missing plugin") ∧
    ((∃ p ∈ media_patterns, p.data <:+: (lowerString "No Decoder available").data) ∧
      is_media_not_supported_error "No Decoder available" = some "No Decoder available") :=
  ⟨⟨by decide, C7_unsupported_classifier_exact.2.2.1 "missing plugin" (by decide)⟩,
   ⟨⟨"no decoder", by decide, by decide⟩,
    C7_unsupported_classifier_exact.1 "No Decoder available"
      ⟨"no decoder", by decide, by decide⟩⟩⟩

/-- A string obtained by appending to a non-empty string is non-empty. -/
lemma string_append_ne_empty (s t : String) (h : s ≠ "") : s ++ t ≠ "" := by
  intro he
  apply h
  have hd := congrArg String.data he
  rw [String.data_append] at hd
  rcases List.append_eq_nil.mp hd with ⟨h1, _⟩
  cases s with
  | mk l =>
      cases h1
      rfl

/-- Claim C6: construction rejects a description that is empty after
whitespace trimming, and a description whose byte length exceeds 64 KiB,
each with an `InvalidPipeline` error carrying a non-empty message; a
description passing both validations is handed unchanged to the parse
phase, so it is never rejected by these two validations. -/
theorem C6_construction_validations :
    ∀ (parse : ParseOracle) (id d : String),
      ((trimString d).isEmpty = true →
          ∃ m, Pipeline.new parse id d = Except.error (GpopError.InvalidPipeline m) ∧
            m ≠ "") ∧
      (d.utf8ByteSize > MAX_PIPELINE_DESCRIPTION_LENGTH →
          ∃ m, Pipeline.new parse id d = Except.error (GpopError.InvalidPipeline m) ∧
            m ≠ "") ∧
      ((trimString d).isEmpty = false → d.utf8ByteSize ≤ MAX_PIPELINE_DESCRIPTION_LENGTH →
          Pipeline.new parse id d = pipelineParsePhase parse id d) := by
  intro parse id d
  refine ⟨?_, ?_, ?_⟩
  · intro h1
    exact ⟨"Pipeline description cannot be empty", by simp [Pipeline.new, h1], by decide⟩
  · intro h2
    by_cases h1 : (trimString d).isEmpty
    · exact ⟨"Pipeline description cannot be empty", by simp [Pipeline.new, h1], by decide⟩
    · refine ⟨"Pipeline description too long: " ++ toString d.utf8ByteSize
          ++ " bytes (max: " ++ toString MAX_PIPELINE_DESCRIPTION_LENGTH ++ " bytes)",
        by simp [Pipeline.new, h1, h2], ?_⟩
      exact string_append_ne_empty _ _ (string_append_ne_empty _ _
        (string_append_ne_empty _ _ (string_append_ne_empty _ _ (by decide))))
  · intro h1 h2
    simp [Pipeline.new, h1, Nat.not_lt.mpr h2]

/-- Witness for C6: the whitespace-only description is rejected with a
non-empty `InvalidPipeline` message, and an ordinary description passes
both validations and reaches the parse phase. -/
theorem C6_construction_validations_witness :
    ((trimString "   ").isEmpty = true ∧
      ∃ m, Pipeline.new parseAlwaysOk "0" "   " =
          Except.error (GpopError.InvalidPipeline m) ∧ m ≠ "") ∧
    ((trimString "fakesrc ! fakesink").isEmpty = false ∧
      "fakesrc ! fakesink".utf8ByteSize ≤ MAX_PIPELINE_DESCRIPTION_LENGTH ∧
      Pipeline.new parseAlwaysOk "0" "fakesrc ! fakesink" =
        pipelineParsePhase parseAlwaysOk "0" "fakesrc ! fakesink") :=
  ⟨⟨by decide, (C6_construction_validations parseAlwaysOk "0" "   ").1 (by decide)⟩,
   ⟨by decide, by decide,
    (C6_construction_validations parseAlwaysOk "0" "fakesrc ! fakesink").2.2
      (by decide) (by decide)⟩⟩

/-- Claim C5: whenever the registry already holds at least `MAX_PIPELINES`
(100) pipelines, `add_pipeline` fails with
`InvalidPipeline("Maximum number of pipelines (100) reached")` and leaves
the whole manager state unmutated (no entry added or removed, counter not
advanced) and emits no event. -/
theorem C5_limit_rejects_without_mutation :
    ∀ (parse : ParseOracle) (st : ManagerState) (d : String),
      MAX_PIPELINES ≤ st.pipelines.length →
      add_pipeline parse st d =
        (Except.error (GpopError.InvalidPipeline
            "Maximum number of pipelines (100) reached"), st, []) := by
  intro parse st d h
  unfold add_pipeline
  rw [if_pos h]
  rfl

/-- A registry state holding exactly 100 pipelines. -/
def stFull : ManagerState :=
  { pipelines := List.replicate 100 ("0", samplePipeline), nextId := 100 }

/-- Witness for C5: on a concrete 100-entry registry, `add_pipeline` is
rejected with the limit message and the state is returned unchanged. -/
theorem C5_limit_rejects_without_mutation_witness :
    MAX_PIPELINES ≤ stFull.pipelines.length ∧
    add_pipeline parseAlwaysOk stFull "videotestsrc ! fakesink" =
      (Except.error (GpopError.InvalidPipeline
          "Maximum number of pipelines (100) reached"), stFull, []) :=
  ⟨by simp [stFull, MAX_PIPELINES],
   C5_limit_rejects_without_mutation parseAlwaysOk stFull "videotestsrc ! fakesink"
     (by simp [stFull, MAX_PIPELINES])⟩

/-- A successful construction returns exactly the given id and description,
with a bus present and the shutdown flag cleared. -/
lemma Pipeline.new_ok (parse : ParseOracle) (id d : String) (p : PipelineR)
    (h : Pipeline.new parse id d = Except.ok p) :
    p = { id := id, description := d, hasBus := true, shutdownFlag := false } := by
  by_cases h1 : (trimString d).isEmpty
  · simp [Pipeline.new, h1] at h
  · by_cases h2 : d.utf8ByteSize > MAX_PIPELINE_DESCRIPTION_LENGTH
    · simp [Pipeline.new, h1, h2] at h
    · rcases hp : parse d with _ | _ | e
      · simp [Pipeline.new, pipelineParsePhase, h1, h2, hp] at h
        exact h.symm
      · simp [Pipeline.new, pipelineParsePhase, h1, h2, hp] at h
      · rcases hc : is_media_not_supported_error e with _ | m <;>
          simp [Pipeline.new, pipelineParsePhase, h1, h2, hp, hc] at h

/-- Removing a present key from a well-formed registry shrinks it by exactly
one entry. -/
lemma length_regRemove_succ :
    ∀ (r : Registry) (id : String), RegWF r → (r.lookup id).isSome = true →
      (regRemove r id).length + 1 = r.length := by
  intro r id hwf hlk
  induction r with
  | nil => simp [List.lookup] at hlk
  | cons kv t ih =>
      rcases kv with ⟨k, v⟩
      rw [RegWF, List.map_cons, List.nodup_cons] at hwf
      by_cases hk : k = id
      · subst hk
        have hfilter : t.filter (fun x => x.1 != k) = t := by
          apply List.filter_eq_self.mpr
          intro a ha
          have hne : a.1 ≠ k := by
            intro he
            have hmem : a.1 ∈ t.map Prod.fst := List.mem_map_of_mem Prod.fst ha
            exact hwf.1 (he ▸ hmem)
          simpa [bne_iff_ne] using hne
        simp [regRemove, hfilter]
      · have hlk₂ : (t.lookup id).isSome = true := by
          have hbeq : (id == k) = false := by
            simp only [beq_eq_false_iff_ne, ne_eq]
            exact fun he => hk he.symm
          simpa [List.lookup, hbeq] using hlk
        have hkeep : (k != id) = true := by simpa [bne_iff_ne] using hk
        have := ih hwf.2 hlk₂
        simp only [regRemove] at this ⊢
        simp only [List.filter_cons, hkeep, if_pos, List.length_cons]
        omega

/-- Claim C1: for an id present in the registry, `update_pipeline` with a
description whose construction succeeds returns success, after which
`get_pipeline_description` returns the new description and `pipeline_count`
is unchanged; with a description whose construction fails it returns that
construction error and leaves the manager state (hence the pre-existing
pipeline) untouched, emitting nothing. -/
theorem C1_update_pipeline_atomic :
    ∀ (parse : ParseOracle) (stopO : StopOracle) (st : ManagerState) (id d : String),
      RegWF st.pipelines →
      (st.pipelines.lookup id).isSome = true →
      (∀ p, Pipeline.new parse id d = Except.ok p →
          (update_pipeline parse stopO st id d).1 = Except.ok () ∧
          get_pipeline_description (update_pipeline parse stopO st id d).2.1 id =
            Except.ok d ∧
          pipeline_count (update_pipeline parse stopO st id d).2.1 =
            pipeline_count st) ∧
      (∀ e, Pipeline.new parse id d = Except.error e →
          update_pipeline parse stopO st id d = (Except.error e, st, [])) := by
  intro parse stopO st id d hwf hlk
  obtain ⟨oldP, hold⟩ := Option.isSome_iff_exists.mp hlk
  constructor
  · intro p hp
    have hps := Pipeline.new_ok parse id d p hp
    have hbus : p.hasBus = true := by rw [hps]
    have hupd : update_pipeline parse stopO st id d =
        (Except.ok (), { st with pipelines := (id, p) :: regRemove st.pipelines id },
          [PipelineEvent.PipelineUpdated id d]) := by
      simp [update_pipeline, hp, hbus, hold]
    refine ⟨by rw [hupd], ?_, ?_⟩
    · rw [hupd]
      simp [get_pipeline_description, List.lookup, hps]
    · rw [hupd]
      simpa [pipeline_count] using length_regRemove_succ st.pipelines id hwf hlk
  · intro e he
    simp [update_pipeline, he]

/-- A registry state holding one pipeline under the id "0". -/
def stOne : ManagerState := { pipelines := [("0", samplePipeline)], nextId := 1 }

/-- Witness for C1: on a concrete one-entry registry, a successful update
swaps the description and keeps the count, and an update whose construction
fails (unsupported media) returns that error with the state unchanged. -/
theorem C1_update_pipeline_atomic_witness :
    (RegWF stOne.pipelines ∧ (stOne.pipelines.lookup "0").isSome = true) ∧
    ((update_pipeline parseAlwaysOk stopAlwaysOk stOne "0" "videotestsrc ! fakesink").1 =
        Except.ok () ∧
      get_pipeline_description
        (update_pipeline parseAlwaysOk stopAlwaysOk stOne "0" "videotestsrc ! fakesink").2.1
        "0" = Except.ok "videotestsrc ! fakesink" ∧
      pipeline_count
        (update_pipeline parseAlwaysOk stopAlwaysOk stOne "0" "videotestsrc ! fakesink").2.1 =
        pipeline_count stOne) ∧
    update_pipeline (fun _ => ParseResult.err "no suitable element found") stopAlwaysOk
        stOne "0" "badsrc ! fakesink" =
      (Except.error (GpopError.MediaNotSupported "no suitable element found"), stOne, []) :=
  ⟨⟨by decide, by decide⟩,
   (C1_update_pipeline_atomic parseAlwaysOk stopAlwaysOk stOne "0" "videotestsrc ! fakesink"
      (by decide) (by decide)).1
     { id := "0", description := "videotestsrc ! fakesink",
       hasBus := true, shutdownFlag := false } rfl,
   (C1_update_pipeline_atomic (fun _ => ParseResult.err "no suitable element found")
      stopAlwaysOk stOne "0" "badsrc ! fakesink" (by decide) (by decide)).2
     (GpopError.MediaNotSupported "no suitable element found") rfl⟩

/-- Counterexample to C2: on a concrete one-entry registry whose pipeline's
drive-to-null fails with a state-change error, `remove_pipeline` surfaces
that error to the caller (instead of the success the claim requires) and
publishes no `pipeline_removed` event, even though the entry has been
removed. -/
theorem C2_remove_pipeline_counterexample :
    (remove_pipeline stopAlwaysFails stOne "0").1 =
        Except.error (GpopError.StateChangeFailed "state change failure") ∧
    (remove_pipeline stopAlwaysFails stOne "0").1 ≠ Except.ok () ∧
    (remove_pipeline stopAlwaysFails stOne "0").2.2 = [] ∧
    (remove_pipeline stopAlwaysFails stOne "0").2.1.pipelines = [] := by
  refine ⟨rfl, ?_, rfl, rfl⟩
  intro h
  simp [remove_pipeline, stOne, stopAlwaysFails, regRemove, List.lookup] at h

/-- Claim C2 as amended: for every id present in the registry,
`remove_pipeline` removes the entry; when driving the graph to null
succeeds it publishes `pipeline_removed` and returns success; when driving
to null fails, that error is returned to the caller and no
`pipeline_removed` event is published (the entry remains removed). -/
theorem C2_remove_pipeline_amended :
    ∀ (stopO : StopOracle) (st : ManagerState) (id : String) (p : PipelineR),
      st.pipelines.lookup id = some p →
      (remove_pipeline stopO st id).2.1.pipelines = regRemove st.pipelines id ∧
      (∀ u, stopO p = Except.ok u →
          remove_pipeline stopO st id =
            (Except.ok (), { st with pipelines := regRemove st.pipelines id },
              [PipelineEvent.PipelineRemoved id])) ∧
      (∀ e, stopO p = Except.error e →
          remove_pipeline stopO st id =
            (Except.error e, { st with pipelines := regRemove st.pipelines id }, [])) := by
  intro stopO st id p hold
  refine ⟨?_, ?_, ?_⟩
  · rcases hs : stopO p with e | u <;> simp [remove_pipeline, hold, hs]
  · intro u hs
    simp [remove_pipeline, hold, hs]
  · intro e hs
    simp [remove_pipeline, hold, hs]

/-- Witness for the amended C2: on the concrete one-entry registry, removal
with a succeeding stop publishes the removal event and returns success, and
removal with a failing stop returns the stop error with no event; in both
cases the entry is gone. -/
theorem C2_remove_pipeline_amended_witness :
    stOne.pipelines.lookup "0" = some samplePipeline ∧
    remove_pipeline stopAlwaysOk stOne "0" =
      (Except.ok (), { stOne with pipelines := regRemove stOne.pipelines "0" },
        [PipelineEvent.PipelineRemoved "0"]) ∧
    remove_pipeline stopAlwaysFails stOne "0" =
      (Except.error (GpopError.StateChangeFailed "state change failure"),
        { stOne with pipelines := regRemove stOne.pipelines "0" }, []) :=
  ⟨by decide,
   (C2_remove_pipeline_amended stopAlwaysOk stOne "0" samplePipeline (by decide)).2.1
     () rfl,
   (C2_remove_pipeline_amended stopAlwaysFails stOne "0" samplePipeline (by decide)).2.2
     (GpopError.StateChangeFailed "state change failure") rfl⟩

/-- Claim C3 (evaluation at the failing input): construction as written in
`gst/pipeline.rs` classifies a parse failure matching the pattern set as
`MediaNotSupported` carrying the original message, and any other parse
failure as `InvalidPipeline` — but the `GpopError` enum declared in
`error.rs` has no `MediaNotSupported` variant, so the crate as shipped
cannot produce the claimed error kind (the embedding adds the variant the
callers reference; see the `GpopError` doc above). -/
theorem C3_parse_failure_classification :
    Pipeline.new (fun _ => ParseResult.err "no suitable element found") "t"
        "badsrc ! fakesink" =
      Except.error (GpopError.MediaNotSupported "no suitable element found") ∧
    Pipeline.new (fun _ => ParseResult.err "generic failure occurred") "t"
        "badsrc ! fakesink" =
      Except.error (GpopError.InvalidPipeline "generic failure occurred") :=
  ⟨rfl, rfl⟩

/-- Claim C4 (round-trip and the missing variant): every variant that
`gst/event.rs` actually declares serializes to the tagged
`(event, data)` JSON shape and parses back to an equal value; yet no
declared variant carries the tag "unsupported" — the tag set is exactly the
six declared tags — and the `unsupported` document required by the spec and
by the repository's own `event_tests.rs` does not deserialize, because the
enum has no `Unsupported` variant. -/
theorem C4_event_roundtrip_and_missing_unsupported :
    (∀ e : PipelineEvent, eventFromJson (eventToJson e) = some e) ∧
    (∀ e : PipelineEvent, ∃ t, eventTag e = some t ∧
        t ∈ ["state_changed", "error", "eos", "pipeline_added",
             "pipeline_updated", "pipeline_removed"]) ∧
    eventFromJson (JVal.obj [("event", JVal.s "unsupported"),
        ("data", JVal.obj [("pipeline_id", JVal.s "pipeline-0"),
          ("message", JVal.s "No decoder available for type 'video/x-h265'")])]) =
      none := by
  refine ⟨?_, ?_, rfl⟩
  · intro e
    cases e with
    | StateChanged pid old new => cases old <;> cases new <;> rfl
    | Error pid msg => rfl
    | Eos pid => rfl
    | PipelineAdded pid desc => rfl
    | PipelineUpdated pid desc => rfl
    | PipelineRemoved pid => rfl
  · intro e
    cases e with
    | StateChanged pid old new => exact ⟨"state_changed", rfl, by decide⟩
    | Error pid msg => exact ⟨"error", rfl, by decide⟩
    | Eos pid => exact ⟨"eos", rfl, by decide⟩
    | PipelineAdded pid desc => exact ⟨"pipeline_added", rfl, by decide⟩
    | PipelineUpdated pid desc => exact ⟨"pipeline_updated", rfl, by decide⟩
    | PipelineRemoved pid => exact ⟨"pipeline_removed", rfl, by decide⟩

/-- Every code the tracker loop emits is the completion code of the flags
at emission time. -/
lemma trackerLoop_code :
    ∀ (msgs : List TrackerMsg) (st : TrackerState) (c : Nat) (fin : TrackerState),
      trackerLoop st msgs = some (c, fin) →
      c = completionCode fin.hadError fin.hadUnsupported := by
  intro msgs
  induction msgs with
  | nil => intro st c fin h; simp [trackerLoop] at h
  | cons m rest ih =>
      intro st c fin h
      simp only [trackerLoop] at h
      by_cases hemp : (trackerStep st m).pending.isEmpty
      · rw [if_pos hemp] at h
        simp only [Option.some.injEq, Prod.mk.injEq] at h
        obtain ⟨rfl, rfl⟩ := h
        rfl
      · rw [if_neg hemp] at h
        exact ih _ _ _ h

/-- If some initial pipeline exists but none is pending at tracker start,
then some initial `play` failed, so the error flag is set from the start. -/
lemma trackerInit_pending_empty_hadError (ids failed : List String)
    (hne : ids ≠ []) (hemp : (trackerInit ids failed).pending.isEmpty = true) :
    (trackerInit ids failed).hadError = true := by
  rcases ids with _ | ⟨a, t⟩
  · exact absurd rfl hne
  · have hfil : ((a :: t).filter (fun id => !(failed.contains id))) = [] := by
      simpa [trackerInit, List.isEmpty_iff] using hemp
    have hcon : failed.contains a = true := by
      have := (List.filter_eq_nil_iff.mp hfil) a (by simp)
      simpa using this
    cases failed with
    | nil => simp at hcon
    | cons b u => simp [trackerInit]

/-- Claim C8: whenever the playback tracker, started from a non-empty
initial pipeline list, emits a completion code, the code is 0 when neither
flag is set, `EXIT_CODE_UNSUPPORTED` (69) when only the unsupported flag is
set, and `EXIT_CODE_ERROR` (1) in every other case — the error flag takes
priority over the unsupported flag. -/
theorem C8_playback_completion_code :
    ∀ (ids failed : List String) (msgs : List TrackerMsg) (c : Nat) (fin : TrackerState),
      ids ≠ [] →
      trackerRun (trackerInit ids failed) msgs = some (c, fin) →
      (fin.hadError = false → fin.hadUnsupported = false → c = 0) ∧
      (fin.hadError = false → fin.hadUnsupported = true → c = EXIT_CODE_UNSUPPORTED) ∧
      (fin.hadError = true → c = EXIT_CODE_ERROR) := by
  intro ids failed msgs c fin hne hrun
  unfold trackerRun at hrun
  by_cases hemp : (trackerInit ids failed).pending.isEmpty
  · rw [if_pos hemp] at hrun
    simp only [Option.some.injEq, Prod.mk.injEq] at hrun
    obtain ⟨rfl, rfl⟩ := hrun
    have herr := trackerInit_pending_empty_hadError ids failed hne hemp
    exact ⟨fun h1 _ => by simp [herr] at h1, fun h1 _ => by simp [herr] at h1,
      fun _ => rfl⟩
  · rw [if_neg hemp] at hrun
    have hc := trackerLoop_code msgs _ c fin hrun
    subst hc
    refine ⟨?_, ?_, ?_⟩
    · intro h1 h2; simp [completionCode, h1, h2]
    · intro h1 h2; simp [completionCode, h1, h2]
    · intro h1; simp [completionCode, h1]

/-- Witness for C8: a single tracked pipeline that reaches end-of-stream
yields completion code 0, and one that errors yields `EXIT_CODE_ERROR`. -/
theorem C8_playback_completion_code_witness :
    ((["0"] : List String) ≠ [] ∧
      trackerRun (trackerInit ["0"] []) [TrackerMsg.ev (TrackerEvent.eos "0")] =
        some (0, { pending := [], hadError := false, hadUnsupported := false }) ∧
      (0 : Nat) = 0) ∧
    (trackerRun (trackerInit ["0"] []) [TrackerMsg.ev (TrackerEvent.error "0" "boom")] =
        some (EXIT_CODE_ERROR,
          { pending := [], hadError := true, hadUnsupported := false }) ∧
      EXIT_CODE_ERROR = EXIT_CODE_ERROR) :=
  ⟨⟨by decide, by decide,
    (C8_playback_completion_code ["0"] [] [TrackerMsg.ev (TrackerEvent.eos "0")] 0
        { pending := [], hadError := false, hadUnsupported := false }
        (by decide) (by decide)).1 rfl rfl⟩,
   ⟨by decide,
    (C8_playback_completion_code ["0"] [] [TrackerMsg.ev (TrackerEvent.error "0" "boom")]
        EXIT_CODE_ERROR { pending := [], hadError := true, hadUnsupported := false }
        (by decide) (by decide)).2.2 rfl⟩⟩

/-- Claim C9: the get_position `progress` field is position divided by
duration clamped to the unit interval exactly when both position and
duration are present and the duration is positive, and is absent in every
other case; every present progress value lies between 0 and 1. -/
theorem C9_progress_clamped_presence :
    ∀ (position_ns duration_ns : Option Nat),
      (∀ pos dur, position_ns = some pos → duration_ns = some dur → 0 < dur →
          computeProgress position_ns duration_ns =
            some (min 1 (max 0 ((pos : ℚ) / (dur : ℚ))))) ∧
      (position_ns = none ∨ duration_ns = none ∨ duration_ns = some 0 →
          computeProgress position_ns duration_ns = none) ∧
      (∀ q, computeProgress position_ns duration_ns = some q → 0 ≤ q ∧ q ≤ 1) := by
  intro position_ns duration_ns
  refine ⟨?_, ?_, ?_⟩
  · rintro pos dur rfl rfl hdur
    simp [computeProgress, hdur]
  · rintro (rfl | rfl | rfl)
    · simp [computeProgress]
    · rcases position_ns with _ | pos <;> simp [computeProgress]
    · rcases position_ns with _ | pos <;> simp [computeProgress]
  · intro q hq
    rcases position_ns with _ | pos <;> rcases duration_ns with _ | dur <;>
      simp [computeProgress] at hq
    rcases hq with ⟨hdur, rfl⟩
    constructor
    · exact le_min (by norm_num) (le_max_left 0 _)
    · exact min_le_left 1 _

/-- Witness for C9: with position 5 ns and duration 10 ns the progress is
present and equals one half (already inside the unit interval), and with a
zero duration it is absent. -/
theorem C9_progress_clamped_presence_witness :
    (0 < 10 ∧ computeProgress (some 5) (some 10) =
        some (min 1 (max 0 ((5 : ℚ) / (10 : ℚ))))) ∧
    computeProgress (some 5) (some 0) = none :=
  ⟨⟨by norm_num, (C9_progress_clamped_presence (some 5) (some 10)).1 5 10 rfl rfl
      (by norm_num)⟩,
   (C9_progress_clamped_presence (some 5) (some 0)).2.1 (Or.inr (Or.inr rfl))⟩

/-- Claim C10: a fresh manager starts its id counter at 0, so the first
`add_pipeline` that reaches id allocation is assigned the id "0"; this is
the same literal the WebSocket transport substitutes for an omitted
optional `pipeline_id`, so `play`/`pause`/`stop`/`get_position` without a
`pipeline_id` resolve to the first pipeline ever created; and even a first
call whose construction fails consumes id 0 (the counter moves to 1). -/
theorem C10_first_id_is_default :
    ManagerState.new.nextId = 0 ∧
    DEFAULT_PIPELINE_ID = "0" ∧
    resolveOptionalPipelineId none = "0" ∧
    (∀ (parse : ParseOracle) (d : String) (p : PipelineR),
        Pipeline.new parse "0" d = Except.ok p →
        (add_pipeline parse ManagerState.new d).1 = Except.ok "0" ∧
        (add_pipeline parse ManagerState.new d).2.1.pipelines.lookup
            (resolveOptionalPipelineId none) = some p) ∧
    (∀ (parse : ParseOracle) (d : String) (e : GpopError),
        Pipeline.new parse "0" d = Except.error e →
        (add_pipeline parse ManagerState.new d).2.1.nextId = 1) := by
  refine ⟨rfl, rfl, rfl, ?_, ?_⟩
  · intro parse d p hp
    have hps := Pipeline.new_ok parse "0" d p hp
    have hbus : p.hasBus = true := by rw [hps]
    have h0 : toString (0 : Nat) = "0" := rfl
    constructor
    · simp [add_pipeline, ManagerState.new, MAX_PIPELINES, h0, hp, hbus]
    · simp [add_pipeline, ManagerState.new, MAX_PIPELINES, h0, hp, hbus,
        resolveOptionalPipelineId, DEFAULT_PIPELINE_ID, regRemove, List.lookup]
  · intro parse d e he
    have h0 : toString (0 : Nat) = "0" := rfl
    simp [add_pipeline, ManagerState.new, MAX_PIPELINES, h0, he]

/-- Witness for C10: with an always-successful parse oracle, the first
pipeline added to a fresh manager gets the id "0" and is the pipeline the
default id resolves to. -/
theorem C10_first_id_is_default_witness :
    Pipeline.new parseAlwaysOk "0" "fakesrc ! fakesink" = Except.ok samplePipeline ∧
    (add_pipeline parseAlwaysOk ManagerState.new "fakesrc ! fakesink").1 =
      Except.ok "0" ∧
    (add_pipeline parseAlwaysOk ManagerState.new "fakesrc ! fakesink").2.1.pipelines.lookup
      (resolveOptionalPipelineId none) = some samplePipeline :=
  ⟨rfl,
   (C10_first_id_is_default.2.2.2.1 parseAlwaysOk "fakesrc ! fakesink"
      samplePipeline rfl).1,
   (C10_first_id_is_default.2.2.2.1 parseAlwaysOk "fakesrc ! fakesink"
      samplePipeline rfl).2⟩

end Gpop
